import Mathlib

/-!
Verification of the transform / projection core of the gl-utils repository
(files camera_2d.go and primitive_2d.go), shallowly embedded over ℚ.

Machine floats (float32) are modelled as exact rationals: every arithmetic
operation of the source is mirrored exactly, so statements about exact
round-trips and cache identity become exact equalities.  The trigonometric
functions of the Go math library are abstracted as function parameters
(sinF, cosF), since no verified property depends on their values.

The mgl32 math-library operations used by the source (Mat4 column-major
matrices, Ortho, Inv, Translate3D, Scale3D, HomogRotate3DZ,
TransformCoordinate, Clamp) are embedded from their mathgl definitions.
OpenGL buffer/shader side effects (SetVertices, Draw, ...) are external
to the verified core and are not modelled.
-/

namespace GlUtils

/-- mgl32.Vec2 -/
structure Vec2 where
  x : ℚ
  y : ℚ
deriving DecidableEq, Repr

/-- mgl32.Vec3 -/
structure Vec3 where
  x : ℚ
  y : ℚ
  z : ℚ
deriving DecidableEq, Repr

/-- mgl32.Vec4 -/
structure Vec4 where
  x : ℚ
  y : ℚ
  z : ℚ
  w : ℚ
deriving DecidableEq, Repr

/-- mgl32: (v Vec3) Vec4(w) -/
def Vec3.Vec4 (v : Vec3) (w : ℚ) : Vec4 := ⟨v.x, v.y, v.z, w⟩

/-- mgl32: (v Vec4) Vec3() -/
def Vec4.Vec3 (v : Vec4) : Vec3 := ⟨v.x, v.y, v.z⟩

/-- mgl32: (v Vec4) Mul(c) -/
def Vec4.Mul (v : Vec4) (c : ℚ) : Vec4 := ⟨v.x * c, v.y * c, v.z * c, v.w * c⟩

/-- mgl32.Mat4: a 4x4 matrix stored column-major as a flat array m0..m15;
entry (row r, column c) is the field numbered c*4+r. -/
structure Mat4 where
  m0 : ℚ
  m1 : ℚ
  m2 : ℚ
  m3 : ℚ
  m4 : ℚ
  m5 : ℚ
  m6 : ℚ
  m7 : ℚ
  m8 : ℚ
  m9 : ℚ
  m10 : ℚ
  m11 : ℚ
  m12 : ℚ
  m13 : ℚ
  m14 : ℚ
  m15 : ℚ
deriving DecidableEq, Repr

/-- The Go zero value of mgl32.Mat4 (all entries zero). -/
def Mat4.zero : Mat4 := ⟨0, 0, 0, 0, 0, 0, 0, 0, 0, 0, 0, 0, 0, 0, 0, 0⟩

/-- mgl32: (m1 Mat4) Mul4(m2), the matrix product (column-major layout). -/
def Mat4.Mul4 (a : Mat4) (b : Mat4) : Mat4 :=
  ⟨a.m0 * b.m0 + a.m4 * b.m1 + a.m8 * b.m2 + a.m12 * b.m3,
   a.m1 * b.m0 + a.m5 * b.m1 + a.m9 * b.m2 + a.m13 * b.m3,
   a.m2 * b.m0 + a.m6 * b.m1 + a.m10 * b.m2 + a.m14 * b.m3,
   a.m3 * b.m0 + a.m7 * b.m1 + a.m11 * b.m2 + a.m15 * b.m3,
   a.m0 * b.m4 + a.m4 * b.m5 + a.m8 * b.m6 + a.m12 * b.m7,
   a.m1 * b.m4 + a.m5 * b.m5 + a.m9 * b.m6 + a.m13 * b.m7,
   a.m2 * b.m4 + a.m6 * b.m5 + a.m10 * b.m6 + a.m14 * b.m7,
   a.m3 * b.m4 + a.m7 * b.m5 + a.m11 * b.m6 + a.m15 * b.m7,
   a.m0 * b.m8 + a.m4 * b.m9 + a.m8 * b.m10 + a.m12 * b.m11,
   a.m1 * b.m8 + a.m5 * b.m9 + a.m9 * b.m10 + a.m13 * b.m11,
   a.m2 * b.m8 + a.m6 * b.m9 + a.m10 * b.m10 + a.m14 * b.m11,
   a.m3 * b.m8 + a.m7 * b.m9 + a.m11 * b.m10 + a.m15 * b.m11,
   a.m0 * b.m12 + a.m4 * b.m13 + a.m8 * b.m14 + a.m12 * b.m15,
   a.m1 * b.m12 + a.m5 * b.m13 + a.m9 * b.m14 + a.m13 * b.m15,
   a.m2 * b.m12 + a.m6 * b.m13 + a.m10 * b.m14 + a.m14 * b.m15,
   a.m3 * b.m12 + a.m7 * b.m13 + a.m11 * b.m14 + a.m15 * b.m15⟩

/-- mgl32: (m1 Mat4) Mul4x1(v Vec4), matrix-vector product. -/
def Mat4.Mul4x1 (m : Mat4) (v : Vec4) : Vec4 :=
  ⟨m.m0 * v.x + m.m4 * v.y + m.m8 * v.z + m.m12 * v.w,
   m.m1 * v.x + m.m5 * v.y + m.m9 * v.z + m.m13 * v.w,
   m.m2 * v.x + m.m6 * v.y + m.m10 * v.z + m.m14 * v.w,
   m.m3 * v.x + m.m7 * v.y + m.m11 * v.z + m.m15 * v.w⟩

/-- mgl32: (m1 Mat4) Mul(c), scalar multiplication of every entry. -/
def Mat4.Mul (m : Mat4) (c : ℚ) : Mat4 :=
  ⟨m.m0 * c, m.m1 * c, m.m2 * c, m.m3 * c,
   m.m4 * c, m.m5 * c, m.m6 * c, m.m7 * c,
   m.m8 * c, m.m9 * c, m.m10 * c, m.m11 * c,
   m.m12 * c, m.m13 * c, m.m14 * c, m.m15 * c⟩

/-- mgl32: (m Mat4) Det(), the 4x4 determinant expanded as in mathgl. -/
def Mat4.Det (m : Mat4) : ℚ :=
  m.m0 * m.m5 * m.m10 * m.m15 - m.m0 * m.m5 * m.m11 * m.m14 -
  m.m0 * m.m6 * m.m9 * m.m15 + m.m0 * m.m6 * m.m11 * m.m13 +
  m.m0 * m.m7 * m.m9 * m.m14 - m.m0 * m.m7 * m.m10 * m.m13 -
  m.m1 * m.m4 * m.m10 * m.m15 + m.m1 * m.m4 * m.m11 * m.m14 +
  m.m1 * m.m6 * m.m8 * m.m15 - m.m1 * m.m6 * m.m11 * m.m12 -
  m.m1 * m.m7 * m.m8 * m.m14 + m.m1 * m.m7 * m.m10 * m.m12 +
  m.m2 * m.m4 * m.m9 * m.m15 - m.m2 * m.m4 * m.m11 * m.m13 -
  m.m2 * m.m5 * m.m8 * m.m15 + m.m2 * m.m5 * m.m11 * m.m12 +
  m.m2 * m.m7 * m.m8 * m.m13 - m.m2 * m.m7 * m.m9 * m.m12 -
  m.m3 * m.m4 * m.m9 * m.m14 + m.m3 * m.m4 * m.m10 * m.m13 +
  m.m3 * m.m5 * m.m8 * m.m14 - m.m3 * m.m5 * m.m10 * m.m12 -
  m.m3 * m.m6 * m.m8 * m.m13 + m.m3 * m.m6 * m.m9 * m.m12

/-- mgl32: (m Mat4) Inv(): the cofactor (adjugate) inverse scaled by 1/det;
the zero matrix when the determinant is zero (mgl32 compares the determinant
against zero, which for exact values is an exact zero test). -/
def Mat4.Inv (m : Mat4) : Mat4 :=
  let det := m.Det
  if det = 0 then Mat4.zero
  else
    (Mat4.mk
      (-m.m7 * m.m10 * m.m13 + m.m6 * m.m11 * m.m13 + m.m7 * m.m9 * m.m14 -
        m.m5 * m.m11 * m.m14 - m.m6 * m.m9 * m.m15 + m.m5 * m.m10 * m.m15)
      (m.m3 * m.m10 * m.m13 - m.m2 * m.m11 * m.m13 - m.m3 * m.m9 * m.m14 +
        m.m1 * m.m11 * m.m14 + m.m2 * m.m9 * m.m15 - m.m1 * m.m10 * m.m15)
      (-m.m3 * m.m6 * m.m13 + m.m2 * m.m7 * m.m13 + m.m3 * m.m5 * m.m14 -
        m.m1 * m.m7 * m.m14 - m.m2 * m.m5 * m.m15 + m.m1 * m.m6 * m.m15)
      (m.m3 * m.m6 * m.m9 - m.m2 * m.m7 * m.m9 - m.m3 * m.m5 * m.m10 +
        m.m1 * m.m7 * m.m10 + m.m2 * m.m5 * m.m11 - m.m1 * m.m6 * m.m11)
      (m.m7 * m.m10 * m.m12 - m.m6 * m.m11 * m.m12 - m.m7 * m.m8 * m.m14 +
        m.m4 * m.m11 * m.m14 + m.m6 * m.m8 * m.m15 - m.m4 * m.m10 * m.m15)
      (-m.m3 * m.m10 * m.m12 + m.m2 * m.m11 * m.m12 + m.m3 * m.m8 * m.m14 -
        m.m0 * m.m11 * m.m14 - m.m2 * m.m8 * m.m15 + m.m0 * m.m10 * m.m15)
      (m.m3 * m.m6 * m.m12 - m.m2 * m.m7 * m.m12 - m.m3 * m.m4 * m.m14 +
        m.m0 * m.m7 * m.m14 + m.m2 * m.m4 * m.m15 - m.m0 * m.m6 * m.m15)
      (-m.m3 * m.m6 * m.m8 + m.m2 * m.m7 * m.m8 + m.m3 * m.m4 * m.m10 -
        m.m0 * m.m7 * m.m10 - m.m2 * m.m4 * m.m11 + m.m0 * m.m6 * m.m11)
      (-m.m7 * m.m9 * m.m12 + m.m5 * m.m11 * m.m12 + m.m7 * m.m8 * m.m13 -
        m.m4 * m.m11 * m.m13 - m.m5 * m.m8 * m.m15 + m.m4 * m.m9 * m.m15)
      (m.m3 * m.m9 * m.m12 - m.m1 * m.m11 * m.m12 - m.m3 * m.m8 * m.m13 +
        m.m0 * m.m11 * m.m13 + m.m1 * m.m8 * m.m15 - m.m0 * m.m9 * m.m15)
      (-m.m3 * m.m5 * m.m12 + m.m1 * m.m7 * m.m12 + m.m3 * m.m4 * m.m13 -
        m.m0 * m.m7 * m.m13 - m.m1 * m.m4 * m.m15 + m.m0 * m.m5 * m.m15)
      (m.m3 * m.m5 * m.m8 - m.m1 * m.m7 * m.m8 - m.m3 * m.m4 * m.m9 +
        m.m0 * m.m7 * m.m9 + m.m1 * m.m4 * m.m11 - m.m0 * m.m5 * m.m11)
      (m.m6 * m.m9 * m.m12 - m.m5 * m.m10 * m.m12 - m.m6 * m.m8 * m.m13 +
        m.m4 * m.m10 * m.m13 + m.m5 * m.m8 * m.m14 - m.m4 * m.m9 * m.m14)
      (-m.m2 * m.m9 * m.m12 + m.m1 * m.m10 * m.m12 + m.m2 * m.m8 * m.m13 -
        m.m0 * m.m10 * m.m13 - m.m1 * m.m8 * m.m14 + m.m0 * m.m9 * m.m14)
      (m.m2 * m.m5 * m.m12 - m.m1 * m.m6 * m.m12 - m.m2 * m.m4 * m.m13 +
        m.m0 * m.m6 * m.m13 + m.m1 * m.m4 * m.m14 - m.m0 * m.m5 * m.m14)
      (-m.m2 * m.m5 * m.m8 + m.m1 * m.m6 * m.m8 + m.m2 * m.m4 * m.m9 -
        m.m0 * m.m6 * m.m9 - m.m1 * m.m4 * m.m10 + m.m0 * m.m5 * m.m10)).Mul
      (1 / det)

/-- mgl32.Ortho(left, right, bottom, top, near, far): the orthographic
projection matrix. -/
def Ortho (left right bottom top near far : ℚ) : Mat4 :=
  let rml := right - left
  let tmb := top - bottom
  let fmn := far - near
  ⟨2 / rml, 0, 0, 0,
   0, 2 / tmb, 0, 0,
   0, 0, -2 / fmn, 0,
   -(right + left) / rml, -(top + bottom) / tmb, -(far + near) / fmn, 1⟩

/-- mgl32.Translate3D(Tx, Ty, Tz). -/
def Translate3D (tx ty tz : ℚ) : Mat4 :=
  ⟨1, 0, 0, 0, 0, 1, 0, 0, 0, 0, 1, 0, tx, ty, tz, 1⟩

/-- mgl32.Scale3D(scaleX, scaleY, scaleZ). -/
def Scale3D (scaleX scaleY scaleZ : ℚ) : Mat4 :=
  ⟨scaleX, 0, 0, 0, 0, scaleY, 0, 0, 0, 0, scaleZ, 0, 0, 0, 0, 1⟩

/-- mgl32.HomogRotate3DZ(angle).  The source computes sine and cosine of the
angle with the math library; those transcendental functions are abstracted
here as the parameters sinF and cosF. -/
def HomogRotate3DZ (sinF cosF : ℚ → ℚ) (angle : ℚ) : Mat4 :=
  let sin := sinF angle
  let cos := cosF angle
  ⟨cos, sin, 0, 0, -sin, cos, 0, 0, 0, 0, 1, 0, 0, 0, 0, 1⟩

/-- mgl32.TransformCoordinate(v, m): extend to a homogeneous coordinate,
apply the matrix, renormalize by the w component, drop w. -/
def TransformCoordinate (v : Vec3) (m : Mat4) : Vec3 :=
  let t := v.Vec4 1
  let t := m.Mul4x1 t
  let t := t.Mul (1 / t.w)
  t.Vec3

/-- mgl32.Clamp(a, low, high). -/
def Clamp (a low high : ℚ) : ℚ :=
  if a < low then low
  else if a > high then high
  else a

/-- camera_2d.go: the Camera2D state.  Matrices are float32 fields in the
source; here exact rationals. -/
structure Camera2D where
  x : ℚ
  y : ℚ
  width : ℚ
  halfWidth : ℚ
  height : ℚ
  halfHeight : ℚ
  zoom : ℚ
  minZoom : ℚ
  maxZoom : ℚ
  centered : Bool
  flipVertical : Bool
  near : ℚ
  far : ℚ
  projectionMatrix : Mat4
  inverseMatrix : Mat4
  matrixDirty : Bool
deriving DecidableEq, Repr

/-- The four clip-plane bounds computed by the first half of rebuildMatrix,
before the vertical-flip swap: left/right/top/bottom of the visible
world-space rectangle. -/
structure Bounds where
  left : ℚ
  right : ℚ
  top : ℚ
  bottom : ℚ
deriving DecidableEq, Repr

/-- camera_2d.go rebuildMatrix, bound computation: centered cameras get
bounds symmetric around zero at half-viewport-over-zoom, otherwise zero to
viewport-over-zoom; all four bounds are then translated by the camera
position. -/
def Camera2D.clipBounds (c : Camera2D) : Bounds :=
  if c.centered then
    let halfWidth := c.halfWidth / c.zoom
    let halfHeight := c.halfHeight / c.zoom
    { left := -halfWidth + c.x, right := halfWidth + c.x,
      top := halfHeight + c.y, bottom := -halfHeight + c.y }
  else
    { left := 0 + c.x, right := c.width / c.zoom + c.x,
      top := c.height / c.zoom + c.y, bottom := 0 + c.y }

/-- camera_2d.go rebuildMatrix: no-op unless matrixDirty; otherwise computes
the bounds, swaps top and bottom when flipVertical, builds the projection by
the source call Ortho(left, right, top, bottom, near, far) (note that the
call site passes its top bound into the bottom parameter slot of Ortho and
vice versa), stores its inverse, and clears the dirty flag. -/
def Camera2D.rebuildMatrix (c : Camera2D) : Camera2D :=
  if c.matrixDirty = false then c
  else
    let bb := c.clipBounds
    let top := if c.flipVertical then bb.bottom else bb.top
    let bottom := if c.flipVertical then bb.top else bb.bottom
    let pm := Ortho bb.left bb.right top bottom c.near c.far
    { c with projectionMatrix := pm, inverseMatrix := pm.Inv, matrixDirty := false }

/-- camera_2d.go NewCamera2D(width, height, zoom): note the initial zoom is
stored without clamping. -/
def NewCamera2D (width height : ℤ) (zoom : ℚ) : Camera2D :=
  let c : Camera2D :=
    { x := 0, y := 0,
      width := (width : ℚ), halfWidth := (width : ℚ) / 2,
      height := (height : ℚ), halfHeight := (height : ℚ) / 2,
      zoom := zoom, minZoom := 1 / 100, maxZoom := 20,
      centered := false, flipVertical := false,
      near := 2, far := -2,
      projectionMatrix := Mat4.zero, inverseMatrix := Mat4.zero,
      matrixDirty := true }
  c.rebuildMatrix

/-- camera_2d.go ProjectionMatrix(): rebuilds if dirty, returns the
projection matrix.  The mutated receiver is returned alongside the result. -/
def Camera2D.ProjectionMatrix (c : Camera2D) : Camera2D × Mat4 :=
  let c := c.rebuildMatrix
  (c, c.projectionMatrix)

/-- camera_2d.go SetPosition(x, y). -/
def Camera2D.SetPosition (c : Camera2D) (x y : ℚ) : Camera2D :=
  { c with x := x, y := y, matrixDirty := true }

/-- camera_2d.go Translate(x, y): negates dy when flipVertical. -/
def Camera2D.Translate (c : Camera2D) (x y : ℚ) : Camera2D :=
  let y := if c.flipVertical then -y else y
  { c with x := c.x + x, y := c.y + y, matrixDirty := true }

/-- camera_2d.go SetZoom(zoom): clamps to [minZoom, maxZoom]. -/
def Camera2D.SetZoom (c : Camera2D) (zoom : ℚ) : Camera2D :=
  let zoom := Clamp zoom c.minZoom c.maxZoom
  { c with zoom := zoom, matrixDirty := true }

/-- camera_2d.go SetZoomRange(minZoom, maxZoom): re-clamps the current zoom
through SetZoom when it falls outside the new range. -/
def Camera2D.SetZoomRange (c : Camera2D) (minZoom maxZoom : ℚ) : Camera2D :=
  let c := { c with minZoom := minZoom, maxZoom := maxZoom }
  if c.zoom > c.maxZoom ∨ c.zoom < c.minZoom then c.SetZoom c.zoom else c

/-- camera_2d.go SetCentered(centered). -/
def Camera2D.SetCentered (c : Camera2D) (centered : Bool) : Camera2D :=
  { c with centered := centered, matrixDirty := true }

/-- camera_2d.go SetFlipVertical(flip). -/
def Camera2D.SetFlipVertical (c : Camera2D) (flip : Bool) : Camera2D :=
  { c with flipVertical := flip, matrixDirty := true }

/-- camera_2d.go SetVisibleArea(x1, y1, x2, y2). -/
def Camera2D.SetVisibleArea (c : Camera2D) (x1 y1 x2 y2 : ℚ) : Camera2D :=
  let width := |x2 - x1|
  let height := |y2 - y1|
  let zoom := min (c.width / width) (c.height / height)
  let c := c.SetZoom zoom
  let x := min x1 x2
  let y := min y1 y2
  if c.centered then c.SetPosition (x + width / 2) (y + height / 2)
  else c.SetPosition x y

/-- camera_2d.go ScreenToWorld(vec): flips the screen y when flipVertical,
normalizes against the half-viewport extents, applies the stored inverse
matrix (no rebuild). -/
def Camera2D.ScreenToWorld (c : Camera2D) (vec : Vec2) : Vec3 :=
  let vec := if c.flipVertical then { vec with y := c.height - vec.y } else vec
  let x := (vec.x - c.halfWidth) / c.halfWidth
  let y := (vec.y - c.halfHeight) / c.halfHeight
  TransformCoordinate ⟨x, y, 0⟩ c.inverseMatrix

/-- camera_2d.go WorldToScreen(vec): applies the stored projection matrix
(no rebuild), denormalizes to pixels, flips y when flipVertical. -/
def Camera2D.WorldToScreen (c : Camera2D) (vec : Vec3) : Vec2 :=
  let ret := TransformCoordinate vec c.projectionMatrix
  let rx := ret.x * c.halfWidth + c.halfWidth
  let ry0 := ret.y * c.halfHeight + c.halfHeight
  let ry := if c.flipVertical then c.height - ry0 else ry0
  ⟨rx, ry⟩

/-- The Camera2D rebuild algorithm as the specification states it: run only
when the dirty flag is set; if centered the four clip-plane bounds are
symmetric around zero at half-viewport-over-zoom, otherwise left and bottom
are zero and right/top are viewport-over-zoom; all four bounds are then
translated by the camera position; if flipVertical, top and bottom are
swapped; the orthogonal projection is built from these bounds and the fixed
near/far planes (bound-to-argument assignment as at the source call site),
its inverse is computed, and the dirty flag is cleared. -/
def rebuildMatrixSpec (c : Camera2D) : Camera2D :=
  if c.matrixDirty = false then c
  else
    let left := (if c.centered then -(c.halfWidth / c.zoom) else 0) + c.x
    let right := (if c.centered then c.halfWidth / c.zoom else c.width / c.zoom) + c.x
    let topBound := (if c.centered then c.halfHeight / c.zoom else c.height / c.zoom) + c.y
    let bottomBound := (if c.centered then -(c.halfHeight / c.zoom) else 0) + c.y
    let top := if c.flipVertical then bottomBound else topBound
    let bottom := if c.flipVertical then topBound else bottomBound
    let pm := Ortho left right top bottom c.near c.far
    { c with projectionMatrix := pm, inverseMatrix := pm.Inv, matrixDirty := false }

/-- Modelled from the spec: the color value a Primitive2D passes to the
shader.  Its concrete representation lives in a collaborator source file that
is not part of the verified core; only its identity matters here, so it is
embedded as an opaque four-component value. -/
structure Color where
  r : ℚ
  g : ℚ
  b : ℚ
  a : ℚ
deriving DecidableEq, Repr

/-- primitive_2d.go: the ModelMatrix cache.  The anonymous embedded
mgl32.Mat4 of the Go struct (the composed product) is the field mat. -/
structure ModelMatrix where
  mat : Mat4
  size : Mat4
  translation : Mat4
  rotation : Mat4
  scale : Mat4
  anchor : Mat4
  dirty : Bool
deriving DecidableEq, Repr

/-- The Go zero value of ModelMatrix. -/
def ModelMatrix.zero : ModelMatrix :=
  ⟨Mat4.zero, Mat4.zero, Mat4.zero, Mat4.zero, Mat4.zero, Mat4.zero, false⟩

/-- primitive_2d.go: the Primitive2D transform state.  The embedded
Primitive (GL buffer/shader/texture handles) carries no transform logic and
is not modelled; vertex upload is an external side effect. -/
structure Primitive2D where
  position : Vec3
  scale : Vec2
  size : Vec2
  anchor : Vec2
  angle : ℚ
  flipX : Bool
  flipY : Bool
  color : Color
  modelMatrix : ModelMatrix
deriving DecidableEq, Repr

/-- primitive_2d.go SetPosition(position). -/
def Primitive2D.SetPosition (p : Primitive2D) (position : Vec3) : Primitive2D :=
  { p with
    position := position,
    modelMatrix := { p.modelMatrix with
      translation := Translate3D position.x position.y position.z,
      dirty := true } }

/-- primitive_2d.go SetAnchor(anchor). -/
def Primitive2D.SetAnchor (p : Primitive2D) (anchor : Vec2) : Primitive2D :=
  { p with
    anchor := anchor,
    modelMatrix := { p.modelMatrix with
      anchor := Translate3D (-anchor.x) (-anchor.y) 0,
      dirty := true } }

/-- primitive_2d.go SetAnchorToCenter(). -/
def Primitive2D.SetAnchorToCenter (p : Primitive2D) : Primitive2D :=
  p.SetAnchor ⟨p.size.x / 2, p.size.y / 2⟩

/-- primitive_2d.go SetAngle(radians). -/
def Primitive2D.SetAngle (sinF cosF : ℚ → ℚ) (p : Primitive2D) (radians : ℚ) : Primitive2D :=
  { p with
    angle := radians,
    modelMatrix := { p.modelMatrix with
      rotation := HomogRotate3DZ sinF cosF radians,
      dirty := true } }

/-- primitive_2d.go SetSize(size). -/
def Primitive2D.SetSize (p : Primitive2D) (size : Vec2) : Primitive2D :=
  { p with
    size := size,
    modelMatrix := { p.modelMatrix with
      size := Scale3D size.x size.y 1,
      dirty := true } }

/-- primitive_2d.go rebuildScaleMatrix(): folds the flip flags into the
scale matrix by negating the corresponding axis. -/
def Primitive2D.rebuildScaleMatrix (p : Primitive2D) : Primitive2D :=
  let scaleX := p.scale.x
  let scaleX := if p.flipX then scaleX * -1 else scaleX
  let scaleY := p.scale.y
  let scaleY := if p.flipY then scaleY * -1 else scaleY
  { p with modelMatrix := { p.modelMatrix with
      scale := Scale3D scaleX scaleY 1,
      dirty := true } }

/-- primitive_2d.go SetScale(scale). -/
def Primitive2D.SetScale (p : Primitive2D) (scale : Vec2) : Primitive2D :=
  ({ p with scale := scale } : Primitive2D).rebuildScaleMatrix

/-- primitive_2d.go SetFlipX(flipX). -/
def Primitive2D.SetFlipX (p : Primitive2D) (flipX : Bool) : Primitive2D :=
  ({ p with flipX := flipX } : Primitive2D).rebuildScaleMatrix

/-- primitive_2d.go SetFlipY(flipY). -/
def Primitive2D.SetFlipY (p : Primitive2D) (flipY : Bool) : Primitive2D :=
  ({ p with flipY := flipY } : Primitive2D).rebuildScaleMatrix

/-- primitive_2d.go SetColor(color). -/
def Primitive2D.SetColor (p : Primitive2D) (color : Color) : Primitive2D :=
  { p with color := color }

/-- primitive_2d.go rebuildMatrices(): rebuilds all five elementary matrices
from the current attributes and marks the cache dirty. -/
def Primitive2D.rebuildMatrices (sinF cosF : ℚ → ℚ) (p : Primitive2D) : Primitive2D :=
  let p := { p with modelMatrix := { p.modelMatrix with
    translation := Translate3D p.position.x p.position.y p.position.z,
    anchor := Translate3D (-p.anchor.x) (-p.anchor.y) 0,
    rotation := HomogRotate3DZ sinF cosF p.angle,
    size := Scale3D p.size.x p.size.y 1 } }
  let p := p.rebuildScaleMatrix
  { p with modelMatrix := { p.modelMatrix with dirty := true } }

/-- primitive_2d.go rebuildModelMatrix(): when dirty, recomposes
translation * rotation * scale * anchor * size and clears the flag. -/
def Primitive2D.rebuildModelMatrix (p : Primitive2D) : Primitive2D :=
  if p.modelMatrix.dirty then
    { p with modelMatrix := { p.modelMatrix with
        mat := ((((p.modelMatrix.translation.Mul4 p.modelMatrix.rotation).Mul4
          p.modelMatrix.scale).Mul4 p.modelMatrix.anchor).Mul4 p.modelMatrix.size),
        dirty := false } }
  else p

/-- primitive_2d.go ModelMatrix(): lazy rebuild, then return the composed
matrix.  The mutated receiver is returned alongside the result. -/
def Primitive2D.ModelMatrix (p : Primitive2D) : Primitive2D × Mat4 :=
  let p := p.rebuildModelMatrix
  (p, p.modelMatrix.mat)

/-- Modelled from the spec: CircleToPolygon, the geometry-construction
collaborator called by NewRegularPolygonPrimitive, lives in a source file
that is not part of the verified core.  The spec states that constructing a
regular-polygon-style primitive from fewer than 3 segments is reported by
this collaborator as a descriptive failure; for valid inputs it yields one
point per segment on the circle, their trigonometric placement abstracted by
the parameters sinP and cosP. -/
def CircleToPolygon (sinP cosP : ℚ → ℚ) (center : Vec2) (radius : ℚ)
    (numSegments : ℤ) (startAngle : ℚ) : Except String (List Vec2) :=
  if numSegments < 3 then
    .error "a polygon needs at least 3 segments"
  else
    .ok ((List.range numSegments.toNat).map fun i =>
      ⟨center.x + radius * cosP (startAngle + i), center.y + radius * sinP (startAngle + i)⟩)

/-- primitive_2d.go NewRegularPolygonPrimitive(center, radius, numSegments,
filled): when geometry construction fails the error is printed and no node
is produced (nil in Go, none here); otherwise a fresh primitive is built
from the Go zero value and rebuildMatrices.  Shader setup and vertex upload
are external side effects. -/
def NewRegularPolygonPrimitive (sinF cosF sinP cosP : ℚ → ℚ) (center : Vec3)
    (radius : ℚ) (numSegments : ℤ) (filled : Bool) : Option Primitive2D :=
  match CircleToPolygon sinP cosP ⟨0, 0⟩ radius numSegments 0 with
  | .error _ => none
  | .ok _ =>
    let q : Primitive2D :=
      { position := center, size := ⟨1, 1⟩, scale := ⟨1, 1⟩, anchor := ⟨0, 0⟩,
        angle := 0, flipX := false, flipY := false,
        color := ⟨0, 0, 0, 0⟩, modelMatrix := ModelMatrix.zero }
    some (q.rebuildMatrices sinF cosF)

/-- The product the specification prescribes for the model matrix: in this
exact order, translation * rotation * (flip-adjusted scale, i.e. the scale
matrix with the x axis negated when flipX and the y axis negated when flipY)
* anchor-offset * size-scale, each elementary matrix built from the current
attribute values. -/
def composedModel (sinF cosF : ℚ → ℚ) (p : Primitive2D) : Mat4 :=
  ((((Translate3D p.position.x p.position.y p.position.z).Mul4
    (HomogRotate3DZ sinF cosF p.angle)).Mul4
    (Scale3D (if p.flipX then -p.scale.x else p.scale.x)
      (if p.flipY then -p.scale.y else p.scale.y) 1)).Mul4
    (Translate3D (-p.anchor.x) (-p.anchor.y) 0)).Mul4
    (Scale3D p.size.x p.size.y 1)

/-- Cache coherence of a Primitive2D: every cached elementary matrix agrees
with the builder applied to the current attributes, and a clean cache holds
the composed product.  Every reachable state satisfies this. -/
def inSync (sinF cosF : ℚ → ℚ) (p : Primitive2D) : Prop :=
  p.modelMatrix.translation = Translate3D p.position.x p.position.y p.position.z ∧
  p.modelMatrix.rotation = HomogRotate3DZ sinF cosF p.angle ∧
  p.modelMatrix.scale = Scale3D (if p.flipX then -p.scale.x else p.scale.x)
    (if p.flipY then -p.scale.y else p.scale.y) 1 ∧
  p.modelMatrix.anchor = Translate3D (-p.anchor.x) (-p.anchor.y) 0 ∧
  p.modelMatrix.size = Scale3D p.size.x p.size.y 1 ∧
  (p.modelMatrix.dirty = false → p.modelMatrix.mat = composedModel sinF cosF p)

/-- The Primitive2D states reachable through the modelled API: any state
just initialized by rebuildMatrices (as every constructor does), followed by
any sequence of setters and ModelMatrix reads. -/
inductive Reachable (sinF cosF : ℚ → ℚ) : Primitive2D → Prop where
  | init (p : Primitive2D) : Reachable sinF cosF (p.rebuildMatrices sinF cosF)
  | setPosition {p : Primitive2D} (v : Vec3) :
      Reachable sinF cosF p → Reachable sinF cosF (p.SetPosition v)
  | setAnchor {p : Primitive2D} (a : Vec2) :
      Reachable sinF cosF p → Reachable sinF cosF (p.SetAnchor a)
  | setAnchorToCenter {p : Primitive2D} :
      Reachable sinF cosF p → Reachable sinF cosF p.SetAnchorToCenter
  | setAngle {p : Primitive2D} (rad : ℚ) :
      Reachable sinF cosF p → Reachable sinF cosF (Primitive2D.SetAngle sinF cosF p rad)
  | setSize {p : Primitive2D} (s : Vec2) :
      Reachable sinF cosF p → Reachable sinF cosF (p.SetSize s)
  | setScale {p : Primitive2D} (s : Vec2) :
      Reachable sinF cosF p → Reachable sinF cosF (p.SetScale s)
  | setFlipX {p : Primitive2D} (b : Bool) :
      Reachable sinF cosF p → Reachable sinF cosF (p.SetFlipX b)
  | setFlipY {p : Primitive2D} (b : Bool) :
      Reachable sinF cosF p → Reachable sinF cosF (p.SetFlipY b)
  | setColor {p : Primitive2D} (col : Color) :
      Reachable sinF cosF p → Reachable sinF cosF (p.SetColor col)
  | modelMatrixRead {p : Primitive2D} :
      Reachable sinF cosF p → Reachable sinF cosF (p.ModelMatrix).1

/-! ## Helper lemmas -/

lemma scale3d_neg_one (x y : ℚ) (bx b2 : Bool) :
    Scale3D (if bx then x * -1 else x) (if b2 then y * -1 else y) 1 =
      Scale3D (if bx then -x else x) (if b2 then -y else y) 1 := by
  cases bx <;> cases b2 <;> simp [mul_neg_one]

lemma inSync_rebuildScaleMatrix (sinF cosF : ℚ → ℚ) (p : Primitive2D)
    (h : inSync sinF cosF p) : inSync sinF cosF p.rebuildScaleMatrix := by
  obtain ⟨h1, h2, h3, h4, h5, _⟩ := h
  unfold Primitive2D.rebuildScaleMatrix
  exact ⟨h1, h2, scale3d_neg_one p.scale.x p.scale.y p.flipX p.flipY, h4, h5, by simp⟩

lemma inSync_rebuildMatrices (sinF cosF : ℚ → ℚ) (p : Primitive2D) :
    inSync sinF cosF (p.rebuildMatrices sinF cosF) := by
  unfold Primitive2D.rebuildMatrices Primitive2D.rebuildScaleMatrix
  exact ⟨rfl, rfl, scale3d_neg_one p.scale.x p.scale.y p.flipX p.flipY, rfl, rfl, by simp⟩

lemma inSync_SetPosition (sinF cosF : ℚ → ℚ) (p : Primitive2D) (v : Vec3)
    (h : inSync sinF cosF p) : inSync sinF cosF (p.SetPosition v) := by
  obtain ⟨h1, h2, h3, h4, h5, _⟩ := h
  unfold Primitive2D.SetPosition
  exact ⟨rfl, h2, h3, h4, h5, by simp⟩

lemma inSync_SetAnchor (sinF cosF : ℚ → ℚ) (p : Primitive2D) (a : Vec2)
    (h : inSync sinF cosF p) : inSync sinF cosF (p.SetAnchor a) := by
  obtain ⟨h1, h2, h3, h4, h5, _⟩ := h
  unfold Primitive2D.SetAnchor
  exact ⟨h1, h2, h3, rfl, h5, by simp⟩

lemma inSync_SetAngle (sinF cosF : ℚ → ℚ) (p : Primitive2D) (rad : ℚ)
    (h : inSync sinF cosF p) : inSync sinF cosF (Primitive2D.SetAngle sinF cosF p rad) := by
  obtain ⟨h1, h2, h3, h4, h5, _⟩ := h
  unfold Primitive2D.SetAngle
  exact ⟨h1, rfl, h3, h4, h5, by simp⟩

lemma inSync_SetSize (sinF cosF : ℚ → ℚ) (p : Primitive2D) (s : Vec2)
    (h : inSync sinF cosF p) : inSync sinF cosF (p.SetSize s) := by
  obtain ⟨h1, h2, h3, h4, h5, _⟩ := h
  unfold Primitive2D.SetSize
  exact ⟨h1, h2, h3, h4, rfl, by simp⟩

lemma inSync_SetScale (sinF cosF : ℚ → ℚ) (p : Primitive2D) (s : Vec2)
    (h : inSync sinF cosF p) : inSync sinF cosF (p.SetScale s) := by
  obtain ⟨h1, h2, h3, h4, h5, _⟩ := h
  unfold Primitive2D.SetScale Primitive2D.rebuildScaleMatrix
  exact ⟨h1, h2, scale3d_neg_one s.x s.y p.flipX p.flipY, h4, h5, by simp⟩

lemma inSync_SetFlipX (sinF cosF : ℚ → ℚ) (p : Primitive2D) (b : Bool)
    (h : inSync sinF cosF p) : inSync sinF cosF (p.SetFlipX b) := by
  obtain ⟨h1, h2, h3, h4, h5, _⟩ := h
  unfold Primitive2D.SetFlipX Primitive2D.rebuildScaleMatrix
  exact ⟨h1, h2, scale3d_neg_one p.scale.x p.scale.y b p.flipY, h4, h5, by simp⟩

lemma inSync_SetFlipY (sinF cosF : ℚ → ℚ) (p : Primitive2D) (b : Bool)
    (h : inSync sinF cosF p) : inSync sinF cosF (p.SetFlipY b) := by
  obtain ⟨h1, h2, h3, h4, h5, _⟩ := h
  unfold Primitive2D.SetFlipY Primitive2D.rebuildScaleMatrix
  exact ⟨h1, h2, scale3d_neg_one p.scale.x p.scale.y p.flipX b, h4, h5, by simp⟩

lemma inSync_SetColor (sinF cosF : ℚ → ℚ) (p : Primitive2D) (col : Color)
    (h : inSync sinF cosF p) : inSync sinF cosF (p.SetColor col) := h

lemma inSync_ModelMatrix (sinF cosF : ℚ → ℚ) (p : Primitive2D)
    (h : inSync sinF cosF p) : inSync sinF cosF (p.ModelMatrix).1 := by
  obtain ⟨h1, h2, h3, h4, h5, h6⟩ := h
  unfold Primitive2D.ModelMatrix Primitive2D.rebuildModelMatrix
  cases hd : p.modelMatrix.dirty
  · simpa [hd] using ⟨h1, h2, h3, h4, h5, h6⟩
  · simp only [hd, if_true, ite_true]
    refine ⟨h1, h2, h3, h4, h5, fun _ => ?_⟩
    rw [h1, h2, h3, h4, h5]
    rfl

lemma reachable_inSync (sinF cosF : ℚ → ℚ) (p : Primitive2D)
    (h : Reachable sinF cosF p) : inSync sinF cosF p := by
  induction h with
  | init q => exact inSync_rebuildMatrices sinF cosF q
  | setPosition v _ ih => exact inSync_SetPosition _ _ _ v ih
  | setAnchor a _ ih => exact inSync_SetAnchor _ _ _ a ih
  | setAnchorToCenter _ ih => exact inSync_SetAnchor _ _ _ _ ih
  | setAngle rad _ ih => exact inSync_SetAngle _ _ _ rad ih
  | setSize s _ ih => exact inSync_SetSize _ _ _ s ih
  | setScale s _ ih => exact inSync_SetScale _ _ _ s ih
  | setFlipX b _ ih => exact inSync_SetFlipX _ _ _ b ih
  | setFlipY b _ ih => exact inSync_SetFlipY _ _ _ b ih
  | setColor col _ ih => exact inSync_SetColor _ _ _ col ih
  | modelMatrixRead _ ih => exact inSync_ModelMatrix _ _ _ ih

lemma setVisibleArea_state (c : Camera2D) (x1 y1 x2 y2 : ℚ)
    (hmin : c.minZoom ≤ min (c.width / |x2 - x1|) (c.height / |y2 - y1|))
    (hmax : min (c.width / |x2 - x1|) (c.height / |y2 - y1|) ≤ c.maxZoom) :
    c.SetVisibleArea x1 y1 x2 y2 =
      { c with
        zoom := min (c.width / |x2 - x1|) (c.height / |y2 - y1|),
        x := if c.centered then min x1 x2 + |x2 - x1| / 2 else min x1 x2,
        y := if c.centered then min y1 y2 + |y2 - y1| / 2 else min y1 y2,
        matrixDirty := true } := by
  have hclamp : Clamp (min (c.width / |x2 - x1|) (c.height / |y2 - y1|))
      c.minZoom c.maxZoom = min (c.width / |x2 - x1|) (c.height / |y2 - y1|) := by
    unfold Clamp
    split_ifs <;> linarith
  cases hc : c.centered <;>
    simp [Camera2D.SetVisibleArea, Camera2D.SetZoom, Camera2D.SetPosition, hc, hclamp]

lemma div_div_self_cancel (a b : ℚ) (ha : a ≠ 0) (hb : b ≠ 0) : a / (a / b) = b := by
  field_simp


lemma Ortho_det (l r b t n f : ℚ) :
    (Ortho l r b t n f).Det = 2 / (r - l) * (2 / (t - b)) * (-2 / (f - n)) := by
  simp [Ortho, Mat4.Det]

lemma Ortho_Inv (l r b t n f : ℚ) (h1 : r - l ≠ 0) (h2 : t - b ≠ 0) (h3 : f - n ≠ 0) :
    (Ortho l r b t n f).Inv =
      ⟨(r - l) / 2, 0, 0, 0,
       0, (t - b) / 2, 0, 0,
       0, 0, (n - f) / 2, 0,
       (r + l) / 2, (t + b) / 2, -(f + n) / 2, 1⟩ := by
  have hdet : (Ortho l r b t n f).Det ≠ 0 := by
    rw [Ortho_det]
    exact mul_ne_zero (mul_ne_zero (div_ne_zero two_ne_zero h1)
      (div_ne_zero two_ne_zero h2)) (div_ne_zero (by norm_num) h3)
  rw [Mat4.Inv]
  simp only [hdet, if_neg, if_false, ite_false]
  rw [Ortho_det]
  simp only [Ortho, Mat4.Mul, Mat4.mk.injEq]
  refine ⟨?_, ?_, ?_, ?_, ?_, ?_, ?_, ?_, ?_, ?_, ?_, ?_, ?_, ?_, ?_, ?_⟩ <;>
    field_simp <;> ring

lemma camera_conv_roundtrip (c : Camera2D) (l r b t px py sx sy : ℚ)
    (hP : c.projectionMatrix = Ortho l r b t 2 (-2))
    (hI : c.inverseMatrix = (Ortho l r b t 2 (-2)).Inv)
    (h1 : r - l ≠ 0) (h2 : t - b ≠ 0)
    (hhw : c.halfWidth ≠ 0) (hhh : c.halfHeight ≠ 0) :
    c.ScreenToWorld (c.WorldToScreen ⟨px, py, 0⟩) = ⟨px, py, 0⟩ ∧
    c.WorldToScreen (c.ScreenToWorld ⟨sx, sy⟩) = ⟨sx, sy⟩ := by
  rw [Ortho_Inv l r b t 2 (-2) h1 h2 (by norm_num)] at hI
  unfold Camera2D.ScreenToWorld Camera2D.WorldToScreen TransformCoordinate
  cases hfv : c.flipVertical <;>
    simp only [hP, hI, Ortho, Vec3.Vec4, Vec4.Vec3, Vec4.Mul, Mat4.Mul4x1, hfv,
      Bool.false_eq_true, if_false, if_true, ite_true, ite_false, Vec3.mk.injEq, Vec2.mk.injEq] <;>
    norm_num <;>
    constructor <;>
    (try constructor) <;>
    field_simp <;>
    ring

lemma clipBounds_rl_ne_zero (c : Camera2D) (hz : c.zoom ≠ 0) (hw : c.width ≠ 0)
    (hhw : c.halfWidth ≠ 0) : c.clipBounds.right - c.clipBounds.left ≠ 0 := by
  cases hc : c.centered <;> simp only [Camera2D.clipBounds, hc, if_true, if_false,
    Bool.false_eq_true, ite_true, ite_false]
  · have : c.width / c.zoom + c.x - (0 + c.x) = c.width / c.zoom := by ring
    rw [this]
    exact div_ne_zero hw hz
  · have : c.halfWidth / c.zoom + c.x - (-(c.halfWidth / c.zoom) + c.x) =
        2 * c.halfWidth / c.zoom := by ring
    rw [this]
    exact div_ne_zero (mul_ne_zero two_ne_zero hhw) hz

lemma clipBounds_tb_ne_zero (c : Camera2D) (hz : c.zoom ≠ 0) (hh : c.height ≠ 0)
    (hhh : c.halfHeight ≠ 0) : c.clipBounds.top - c.clipBounds.bottom ≠ 0 := by
  cases hc : c.centered <;> simp only [Camera2D.clipBounds, hc, if_true, if_false,
    Bool.false_eq_true, ite_true, ite_false]
  · have : c.height / c.zoom + c.y - (0 + c.y) = c.height / c.zoom := by ring
    rw [this]
    exact div_ne_zero hh hz
  · have : c.halfHeight / c.zoom + c.y - (-(c.halfHeight / c.zoom) + c.y) =
        2 * c.halfHeight / c.zoom := by ring
    rw [this]
    exact div_ne_zero (mul_ne_zero two_ne_zero hhh) hz

/-! ## Claim C1 -/

/-- C1, counterexample to the claim as stated: the conversions are not exact
inverses on every world point.  WorldToScreen discards the z coordinate and
ScreenToWorld reconstructs it from clip depth 0, so for the freshly built
camera (viewport 800x600, zoom 1, matrices rebuilt) the world point (0,0,1)
round-trips to (0,0,0), not to itself. -/
theorem C1_cex_z_not_reproduced :
    (NewCamera2D 800 600 1).ScreenToWorld
      ((NewCamera2D 800 600 1).WorldToScreen ⟨0, 0, 1⟩) = ⟨0, 0, 0⟩ ∧
    (⟨0, 0, 0⟩ : Vec3) ≠ ⟨0, 0, 1⟩ := by
  constructor
  · norm_num [NewCamera2D, Camera2D.rebuildMatrix, Camera2D.clipBounds,
      Camera2D.ScreenToWorld, Camera2D.WorldToScreen, Ortho, Mat4.Inv, Mat4.Det,
      Mat4.Mul, Mat4.Mul4x1, Mat4.zero, TransformCoordinate, Vec3.Vec4, Vec4.Vec3,
      Vec4.Mul]
  · intro h
    exact absurd (congrArg Vec3.z h) (by norm_num)

/-- C1 (amended): for every Camera2D state with nondegenerate viewport and
zoom, the fixed near/far planes of construction, and the cached matrices
rebuilt for that state, ScreenToWorld and WorldToScreen are exact inverses on
the world plane z = 0: ScreenToWorld (WorldToScreen (px, py, 0)) = (px, py, 0)
and WorldToScreen (ScreenToWorld s) = s for every screen point s.  The
original claim fails only in that a world point with nonzero z is returned
with z = 0 (see the counterexample). -/
theorem C1_screen_world_exact_inverses (c0 : Camera2D) (px py sx sy : ℚ)
    (hdirty : c0.matrixDirty = true)
    (hz : c0.zoom ≠ 0) (hw : c0.width ≠ 0) (hh : c0.height ≠ 0)
    (hhw : c0.halfWidth ≠ 0) (hhh : c0.halfHeight ≠ 0)
    (hn : c0.near = 2) (hf : c0.far = -2) :
    (c0.rebuildMatrix.ScreenToWorld (c0.rebuildMatrix.WorldToScreen ⟨px, py, 0⟩) =
      ⟨px, py, 0⟩) ∧
    (c0.rebuildMatrix.WorldToScreen (c0.rebuildMatrix.ScreenToWorld ⟨sx, sy⟩) =
      ⟨sx, sy⟩) := by
  have hrb : c0.rebuildMatrix =
      { c0 with
        projectionMatrix := Ortho c0.clipBounds.left c0.clipBounds.right
          (if c0.flipVertical then c0.clipBounds.bottom else c0.clipBounds.top)
          (if c0.flipVertical then c0.clipBounds.top else c0.clipBounds.bottom) 2 (-2),
        inverseMatrix := (Ortho c0.clipBounds.left c0.clipBounds.right
          (if c0.flipVertical then c0.clipBounds.bottom else c0.clipBounds.top)
          (if c0.flipVertical then c0.clipBounds.top else c0.clipBounds.bottom) 2 (-2)).Inv,
        matrixDirty := false } := by
    simp [Camera2D.rebuildMatrix, hdirty, hn, hf]
  have h2 : (if c0.flipVertical then c0.clipBounds.top else c0.clipBounds.bottom) -
      (if c0.flipVertical then c0.clipBounds.bottom else c0.clipBounds.top) ≠ 0 := by
    cases hfv : c0.flipVertical <;> simp only [if_true, if_false, Bool.false_eq_true,
      ite_true, ite_false]
    · intro hcon
      exact clipBounds_tb_ne_zero c0 hz hh hhh (by linarith [sub_eq_zero.mp hcon])
    · exact clipBounds_tb_ne_zero c0 hz hh hhh
  exact camera_conv_roundtrip c0.rebuildMatrix c0.clipBounds.left c0.clipBounds.right
    (if c0.flipVertical then c0.clipBounds.bottom else c0.clipBounds.top)
    (if c0.flipVertical then c0.clipBounds.top else c0.clipBounds.bottom) px py sx sy
    (by rw [hrb]) (by rw [hrb])
    (clipBounds_rl_ne_zero c0 hz hw hhw) h2
    (by rw [hrb]; exact hhw) (by rw [hrb]; exact hhh)

/-- C1 witness: the amended round-trip theorem applied to the concrete
camera obtained from NewCamera2D 800 600 1 followed by SetPosition 3 4
(dirty, so the rebuild recomputes for that state), at the world point (5, 7, 0)
and the screen point (11, 13). -/
theorem C1_witness :
    (((NewCamera2D 800 600 1).SetPosition 3 4).rebuildMatrix.ScreenToWorld
      (((NewCamera2D 800 600 1).SetPosition 3 4).rebuildMatrix.WorldToScreen
        ⟨5, 7, 0⟩) = ⟨5, 7, 0⟩) ∧
    (((NewCamera2D 800 600 1).SetPosition 3 4).rebuildMatrix.WorldToScreen
      (((NewCamera2D 800 600 1).SetPosition 3 4).rebuildMatrix.ScreenToWorld
        ⟨11, 13⟩) = ⟨11, 13⟩) :=
  C1_screen_world_exact_inverses ((NewCamera2D 800 600 1).SetPosition 3 4) 5 7 11 13
    (by simp [NewCamera2D, Camera2D.rebuildMatrix, Camera2D.SetPosition])
    (by norm_num [NewCamera2D, Camera2D.rebuildMatrix, Camera2D.SetPosition])
    (by norm_num [NewCamera2D, Camera2D.rebuildMatrix, Camera2D.SetPosition])
    (by norm_num [NewCamera2D, Camera2D.rebuildMatrix, Camera2D.SetPosition])
    (by norm_num [NewCamera2D, Camera2D.rebuildMatrix, Camera2D.SetPosition])
    (by norm_num [NewCamera2D, Camera2D.rebuildMatrix, Camera2D.SetPosition])
    (by norm_num [NewCamera2D, Camera2D.rebuildMatrix, Camera2D.SetPosition])
    (by norm_num [NewCamera2D, Camera2D.rebuildMatrix, Camera2D.SetPosition])

/-! ## Claim C7 -/

/-- C7, counterexample to the claim as stated: for the camera with viewport
800x600, centered = false, flipVertical = false, zoom = 1, position (0,0) and
matrices rebuilt, ScreenToWorld (0,0) is the world point (0, 600, 0), not
(-1, -1, 0): the claimed values are the normalized clip-space coordinates,
not what ScreenToWorld returns. -/
theorem C7_cex_screen_origin :
    (NewCamera2D 800 600 1).ScreenToWorld ⟨0, 0⟩ ≠ ⟨-1, -1, 0⟩ := by
  have hval : (NewCamera2D 800 600 1).ScreenToWorld ⟨0, 0⟩ = ⟨0, 600, 0⟩ := by
    norm_num [NewCamera2D, Camera2D.rebuildMatrix, Camera2D.clipBounds,
      Camera2D.ScreenToWorld, Ortho, Mat4.Inv, Mat4.Det, Mat4.Mul, Mat4.Mul4x1,
      Mat4.zero, TransformCoordinate, Vec3.Vec4, Vec4.Vec3, Vec4.Mul]
  rw [hval]
  intro h
  exact absurd (congrArg Vec3.x h) (by norm_num)

/-- C7 (amended): for the camera with viewport 800x600, centered = false,
flipVertical = false, zoom = 1, position (0,0) and matrices rebuilt,
ScreenToWorld (0,0) is the world point (0, 600, 0) and ScreenToWorld
(800, 600) is (800, 0, 0) (the y axis points down in this mode), and both are
consistent with the forward conversion: WorldToScreen maps them back to the
original screen points. -/
theorem C7_screen_corners :
    (NewCamera2D 800 600 1).ScreenToWorld ⟨0, 0⟩ = ⟨0, 600, 0⟩ ∧
    (NewCamera2D 800 600 1).ScreenToWorld ⟨800, 600⟩ = ⟨800, 0, 0⟩ ∧
    (NewCamera2D 800 600 1).WorldToScreen ⟨0, 600, 0⟩ = ⟨0, 0⟩ ∧
    (NewCamera2D 800 600 1).WorldToScreen ⟨800, 0, 0⟩ = ⟨800, 600⟩ := by
  refine ⟨?_, ?_, ?_, ?_⟩ <;>
    norm_num [NewCamera2D, Camera2D.rebuildMatrix, Camera2D.clipBounds,
      Camera2D.ScreenToWorld, Camera2D.WorldToScreen, Ortho, Mat4.Inv, Mat4.Det,
      Mat4.Mul, Mat4.Mul4x1, Mat4.zero, TransformCoordinate, Vec3.Vec4, Vec4.Vec3,
      Vec4.Mul]

/-! ## Claim C3 -/

/-- C3: the Camera2D rebuild runs only when the dirty flag is set, and then
computes exactly the bounds the specification describes (centered: symmetric
around zero at half-viewport-over-zoom; otherwise zero to viewport-over-zoom;
translated by the camera position; top and bottom swapped when flipVertical),
builds the orthogonal projection from these bounds and the fixed near/far
planes, computes its inverse and clears the dirty flag: rebuildMatrix agrees
with the specification-side description on every state, and is the identity
on clean states. -/
theorem C3_rebuild_algorithm (c : Camera2D) :
    c.rebuildMatrix = rebuildMatrixSpec c ∧
    (c.matrixDirty = false → c.rebuildMatrix = c) := by
  constructor
  · cases hd : c.matrixDirty <;> cases hc : c.centered <;> cases hf : c.flipVertical <;>
      simp [Camera2D.rebuildMatrix, rebuildMatrixSpec, Camera2D.clipBounds, hd, hc, hf]
  · intro h
    simp [Camera2D.rebuildMatrix, h]

/-- C3 witness: the rebuild-description theorem applied to the concrete,
clean camera NewCamera2D 800 600 1 (its construction already rebuilt the
matrices, so the dirty flag is clear and rebuildMatrix leaves it unchanged). -/
theorem C3_witness :
    (NewCamera2D 800 600 1).rebuildMatrix = rebuildMatrixSpec (NewCamera2D 800 600 1) ∧
    (NewCamera2D 800 600 1).rebuildMatrix = NewCamera2D 800 600 1 :=
  ⟨(C3_rebuild_algorithm (NewCamera2D 800 600 1)).1,
   (C3_rebuild_algorithm (NewCamera2D 800 600 1)).2
     (by simp [NewCamera2D, Camera2D.rebuildMatrix])⟩

/-! ## Claim C4 -/

/-- C4, counterexample to the claim as stated: construction with an initial
zoom does not respect the zoom range.  NewCamera2D 800 600 50 stores zoom 50
although maxZoom is 20, so minZoom ≤ zoom ≤ maxZoom fails right after
construction. -/
theorem C4_cex_constructor_stores_unclamped :
    ¬((NewCamera2D 800 600 50).minZoom ≤ (NewCamera2D 800 600 50).zoom ∧
      (NewCamera2D 800 600 50).zoom ≤ (NewCamera2D 800 600 50).maxZoom) := by
  intro h
  have h2 := h.2
  norm_num [NewCamera2D, Camera2D.rebuildMatrix] at h2

/-- C4 (amended): SetZoom clamps every argument, so after SetZoom the zoom
lies in [minZoom, maxZoom] (provided the range is nonempty), an argument
already in range is stored exactly, and with a positive minZoom no zero or
negative zoom is ever stored; SetZoomRange re-establishes the invariant for
the new range.  The original claim fails only for construction: NewCamera2D
stores its initial zoom unclamped (see the counterexample). -/
theorem C4_setZoom_clamps (c : Camera2D) (z mn mx : ℚ)
    (hc : c.minZoom ≤ c.maxZoom) (hr : mn ≤ mx) (hpos : 0 < c.minZoom) :
    (c.minZoom ≤ (c.SetZoom z).zoom ∧ (c.SetZoom z).zoom ≤ c.maxZoom) ∧
    (c.minZoom ≤ z → z ≤ c.maxZoom → (c.SetZoom z).zoom = z) ∧
    (0 < (c.SetZoom z).zoom) ∧
    (mn ≤ (c.SetZoomRange mn mx).zoom ∧ (c.SetZoomRange mn mx).zoom ≤ mx) := by
  refine ⟨⟨?_, ?_⟩, ?_, ?_, ?_, ?_⟩ <;>
    simp only [Camera2D.SetZoom, Camera2D.SetZoomRange, Clamp] <;>
    intros <;>
    split_ifs <;>
    first
      | linarith
      | (simp_all <;> linarith)

/-- C4 witness: the amended clamping theorem applied to the camera
NewCamera2D 800 600 1 (whose zoom range is [1/100, 20]) with the out-of-range
zoom argument 100 and the new range [1, 2]. -/
theorem C4_witness :
    ((NewCamera2D 800 600 1).minZoom ≤ ((NewCamera2D 800 600 1).SetZoom 100).zoom ∧
      ((NewCamera2D 800 600 1).SetZoom 100).zoom ≤ (NewCamera2D 800 600 1).maxZoom) ∧
    ((NewCamera2D 800 600 1).minZoom ≤ 100 → (100 : ℚ) ≤ (NewCamera2D 800 600 1).maxZoom →
      ((NewCamera2D 800 600 1).SetZoom 100).zoom = 100) ∧
    (0 < ((NewCamera2D 800 600 1).SetZoom 100).zoom) ∧
    ((1 : ℚ) ≤ ((NewCamera2D 800 600 1).SetZoomRange 1 2).zoom ∧
      ((NewCamera2D 800 600 1).SetZoomRange 1 2).zoom ≤ 2) :=
  C4_setZoom_clamps (NewCamera2D 800 600 1) 100 1 2
    (by norm_num [NewCamera2D, Camera2D.rebuildMatrix])
    (by norm_num)
    (by norm_num [NewCamera2D, Camera2D.rebuildMatrix])

/-! ## Claim C6 -/

/-- C6: every Primitive2D setter among SetPosition, SetAnchor, SetAngle,
SetSize, SetScale, SetFlipX, SetFlipY marks the cached model matrix dirty,
and two consecutive ModelMatrix reads with no intervening mutation return the
identical state and the identical matrix (the second read hits the cache). -/
theorem C6_setters_dirty_and_cache_identity (sinF cosF : ℚ → ℚ) (p : Primitive2D)
    (v3 : Vec3) (a2 sz sc : Vec2) (rad : ℚ) (b1 b2 : Bool) :
    (p.SetPosition v3).modelMatrix.dirty = true ∧
    (p.SetAnchor a2).modelMatrix.dirty = true ∧
    (Primitive2D.SetAngle sinF cosF p rad).modelMatrix.dirty = true ∧
    (p.SetSize sz).modelMatrix.dirty = true ∧
    (p.SetScale sc).modelMatrix.dirty = true ∧
    (p.SetFlipX b1).modelMatrix.dirty = true ∧
    (p.SetFlipY b2).modelMatrix.dirty = true ∧
    (p.ModelMatrix).1.ModelMatrix = p.ModelMatrix := by
  refine ⟨rfl, rfl, rfl, rfl, rfl, rfl, rfl, ?_⟩
  cases hd : p.modelMatrix.dirty <;>
    simp [Primitive2D.ModelMatrix, Primitive2D.rebuildModelMatrix, hd]

/-! ## Claim C9 -/

/-- C9: the conversions never trigger the lazy rebuild.  Every Camera2D
mutator leaves the stored projection and inverse matrices untouched and only
marks the state dirty; ScreenToWorld and WorldToScreen are insensitive to the
dirty flag and to the rebuild inputs (position, zoom, centered), reading only
the matrices computed at the last rebuild; and only ProjectionMatrix performs
the rebuild and clears the dirty flag. -/
theorem C9_conversions_no_rebuild (c : Camera2D) (x y z arg1 arg2 az bz zz : ℚ)
    (b cc dd : Bool) (v : Vec2) (w : Vec3) :
    ((c.SetPosition x y).projectionMatrix = c.projectionMatrix ∧
     (c.SetPosition x y).inverseMatrix = c.inverseMatrix ∧
     (c.SetPosition x y).matrixDirty = true) ∧
    ((c.Translate x y).projectionMatrix = c.projectionMatrix ∧
     (c.Translate x y).inverseMatrix = c.inverseMatrix ∧
     (c.Translate x y).matrixDirty = true) ∧
    ((c.SetZoom z).projectionMatrix = c.projectionMatrix ∧
     (c.SetZoom z).inverseMatrix = c.inverseMatrix ∧
     (c.SetZoom z).matrixDirty = true) ∧
    ((c.SetCentered b).projectionMatrix = c.projectionMatrix ∧
     (c.SetCentered b).inverseMatrix = c.inverseMatrix ∧
     (c.SetCentered b).matrixDirty = true) ∧
    ((c.SetFlipVertical b).projectionMatrix = c.projectionMatrix ∧
     (c.SetFlipVertical b).inverseMatrix = c.inverseMatrix ∧
     (c.SetFlipVertical b).matrixDirty = true) ∧
    ((c.SetVisibleArea arg1 arg2 az bz).projectionMatrix = c.projectionMatrix ∧
     (c.SetVisibleArea arg1 arg2 az bz).inverseMatrix = c.inverseMatrix ∧
     (c.SetVisibleArea arg1 arg2 az bz).matrixDirty = true) ∧
    (Camera2D.ScreenToWorld
      { c with x := x, y := y, zoom := zz, centered := cc, matrixDirty := dd } v =
        c.ScreenToWorld v) ∧
    (Camera2D.WorldToScreen
      { c with x := x, y := y, zoom := zz, centered := cc, matrixDirty := dd } w =
        c.WorldToScreen w) ∧
    (c.ProjectionMatrix = (c.rebuildMatrix, c.rebuildMatrix.projectionMatrix)) ∧
    (c.rebuildMatrix.matrixDirty = false) := by
  refine ⟨⟨rfl, rfl, rfl⟩, ⟨rfl, rfl, rfl⟩, ⟨rfl, rfl, rfl⟩, ⟨rfl, rfl, rfl⟩,
    ⟨rfl, rfl, rfl⟩, ⟨?_, ?_, ?_⟩, rfl, rfl, rfl, ?_⟩
  · unfold Camera2D.SetVisibleArea
    cases hc : c.centered <;> simp [Camera2D.SetZoom, Camera2D.SetPosition, hc]
  · unfold Camera2D.SetVisibleArea
    cases hc : c.centered <;> simp [Camera2D.SetZoom, Camera2D.SetPosition, hc]
  · unfold Camera2D.SetVisibleArea
    cases hc : c.centered <;> simp [Camera2D.SetZoom, Camera2D.SetPosition, hc]
  · cases hd : c.matrixDirty <;> simp [Camera2D.rebuildMatrix, hd]

/-! ## Claim C10 -/

/-- C10: SetColor changes only the color: the whole model-matrix cache
(including its dirty flag) and every transform attribute are unchanged, and
the matrix ModelMatrix returns immediately before and immediately after the
call is identical. -/
theorem C10_setColor_only_color (p : Primitive2D) (col : Color) :
    (p.SetColor col).modelMatrix = p.modelMatrix ∧
    (p.SetColor col).color = col ∧
    (p.SetColor col).position = p.position ∧
    (p.SetColor col).anchor = p.anchor ∧
    (p.SetColor col).angle = p.angle ∧
    (p.SetColor col).size = p.size ∧
    (p.SetColor col).scale = p.scale ∧
    (p.SetColor col).flipX = p.flipX ∧
    (p.SetColor col).flipY = p.flipY ∧
    ((p.SetColor col).ModelMatrix).2 = (p.ModelMatrix).2 := by
  refine ⟨rfl, rfl, rfl, rfl, rfl, rfl, rfl, rfl, rfl, ?_⟩
  cases hd : p.modelMatrix.dirty <;>
    simp [Primitive2D.SetColor, Primitive2D.ModelMatrix, Primitive2D.rebuildModelMatrix, hd]

/-! ## Claim C2 -/

/-- C2: for every reachable Primitive2D state, the model matrix returned by
ModelMatrix equals the product, in this exact order, of translation x
rotation x flip-adjusted scale (the scale matrix with the x axis negated when
flipX and the y axis negated when flipY) x anchor-offset x size-scale, each
elementary matrix built from the current attribute values. -/
theorem C2_model_matrix_composition (sinF cosF : ℚ → ℚ) (p : Primitive2D)
    (h : Reachable sinF cosF p) :
    (p.ModelMatrix).2 = composedModel sinF cosF p := by
  obtain ⟨h1, h2, h3, h4, h5, h6⟩ := reachable_inSync sinF cosF p h
  unfold Primitive2D.ModelMatrix Primitive2D.rebuildModelMatrix
  cases hd : p.modelMatrix.dirty
  · simpa [hd] using h6 hd
  · simp only [hd, if_true, ite_true]
    rw [h1, h2, h3, h4, h5]
    rfl

/-- C2 witness: the composition theorem applied to the concrete primitive
with position (1,2,3), scale (2,3), size (4,5), anchor (6,7), angle 0 and
flipX set, freshly initialized through rebuildMatrices (as every constructor
does), with the trigonometric functions instantiated at sin = 0, cos = 1. -/
theorem C2_witness :
    ((Primitive2D.rebuildMatrices (fun _ => 0) (fun _ => 1)
        ⟨⟨1, 2, 3⟩, ⟨2, 3⟩, ⟨4, 5⟩, ⟨6, 7⟩, 0, true, false, ⟨0, 0, 0, 0⟩,
          ModelMatrix.zero⟩).ModelMatrix).2 =
      composedModel (fun _ => 0) (fun _ => 1)
        (Primitive2D.rebuildMatrices (fun _ => 0) (fun _ => 1)
          ⟨⟨1, 2, 3⟩, ⟨2, 3⟩, ⟨4, 5⟩, ⟨6, 7⟩, 0, true, false, ⟨0, 0, 0, 0⟩,
            ModelMatrix.zero⟩) :=
  C2_model_matrix_composition (fun _ => 0) (fun _ => 1) _ (Reachable.init _)

/-! ## Claim C5 -/

/-- C5, counterexample to the claim as stated: SetVisibleArea routes the
computed zoom through SetZoom, which clamps it to [minZoom, maxZoom], so for
a huge area the stored zoom is larger than requested and the visible
rectangle does not contain the area.  For NewCamera2D 800 600 1 and the area
(0,0)-(100000,100000) the visible right bound is 80000 < 100000. -/
theorem C5_cex_clamped_zoom_loses_area :
    ¬(max (0 : ℚ) 100000 ≤
        ((NewCamera2D 800 600 1).SetVisibleArea 0 0 100000 100000).clipBounds.right) := by
  have hval : ((NewCamera2D 800 600 1).SetVisibleArea 0 0 100000 100000).clipBounds.right
      = 80000 := by
    norm_num [NewCamera2D, Camera2D.rebuildMatrix, Camera2D.clipBounds,
      Camera2D.SetVisibleArea, Camera2D.SetZoom, Camera2D.SetPosition, Clamp, min_def]
  rw [hval]
  norm_num


/-- C5 (amended): when the computed zoom min(viewportWidth/|dx|,
viewportHeight/|dy|) lies inside [minZoom, maxZoom] (so SetZoom's clamp is
the identity; outside that range the counterexample applies), the area has
nonzero extent on both axes, and the half-viewport fields are half the
viewport, SetVisibleArea stores exactly that zoom, positions the camera at
the area's min corner (or its center when centered), and the resulting
clip-plane bounds fully contain the requested rectangle with the binding
axis exactly matching the viewport extent. -/
theorem C5_set_visible_area (c : Camera2D) (x1 y1 x2 y2 : ℚ)
    (hx : x1 ≠ x2) (hy : y1 ≠ y2) (hw : 0 < c.width) (hh : 0 < c.height)
    (hhw : c.halfWidth = c.width / 2) (hhh : c.halfHeight = c.height / 2)
    (hmin : c.minZoom ≤ min (c.width / |x2 - x1|) (c.height / |y2 - y1|))
    (hmax : min (c.width / |x2 - x1|) (c.height / |y2 - y1|) ≤ c.maxZoom) :
    ((c.SetVisibleArea x1 y1 x2 y2).zoom =
        min (c.width / |x2 - x1|) (c.height / |y2 - y1|)) ∧
    ((c.SetVisibleArea x1 y1 x2 y2).x =
        (if c.centered then min x1 x2 + |x2 - x1| / 2 else min x1 x2)) ∧
    ((c.SetVisibleArea x1 y1 x2 y2).y =
        (if c.centered then min y1 y2 + |y2 - y1| / 2 else min y1 y2)) ∧
    ((c.SetVisibleArea x1 y1 x2 y2).clipBounds.left ≤ min x1 x2) ∧
    (max x1 x2 ≤ (c.SetVisibleArea x1 y1 x2 y2).clipBounds.right) ∧
    ((c.SetVisibleArea x1 y1 x2 y2).clipBounds.bottom ≤ min y1 y2) ∧
    (max y1 y2 ≤ (c.SetVisibleArea x1 y1 x2 y2).clipBounds.top) ∧
    ((c.SetVisibleArea x1 y1 x2 y2).clipBounds.right -
        (c.SetVisibleArea x1 y1 x2 y2).clipBounds.left = |x2 - x1| ∨
      (c.SetVisibleArea x1 y1 x2 y2).clipBounds.top -
        (c.SetVisibleArea x1 y1 x2 y2).clipBounds.bottom = |y2 - y1|) := by
  have hdx : 0 < |x2 - x1| := abs_pos.mpr (sub_ne_zero.mpr (Ne.symm hx))
  have hdy : 0 < |y2 - y1| := abs_pos.mpr (sub_ne_zero.mpr (Ne.symm hy))
  have hzv : 0 < min (c.width / |x2 - x1|) (c.height / |y2 - y1|) :=
    lt_min (div_pos hw hdx) (div_pos hh hdy)
  have hWz : |x2 - x1| ≤
      c.width / min (c.width / |x2 - x1|) (c.height / |y2 - y1|) := by
    rw [le_div_iff₀ hzv]
    have h1 := (le_div_iff₀ hdx).mp (min_le_left (c.width / |x2 - x1|) (c.height / |y2 - y1|))
    linarith [mul_comm (|x2 - x1|) (min (c.width / |x2 - x1|) (c.height / |y2 - y1|))]
  have hHz : |y2 - y1| ≤
      c.height / min (c.width / |x2 - x1|) (c.height / |y2 - y1|) := by
    rw [le_div_iff₀ hzv]
    have h1 := (le_div_iff₀ hdy).mp (min_le_right (c.width / |x2 - x1|) (c.height / |y2 - y1|))
    linarith [mul_comm (|y2 - y1|) (min (c.width / |x2 - x1|) (c.height / |y2 - y1|))]
  have hbind : c.width / min (c.width / |x2 - x1|) (c.height / |y2 - y1|) = |x2 - x1| ∨
      c.height / min (c.width / |x2 - x1|) (c.height / |y2 - y1|) = |y2 - y1| := by
    rcases le_total (c.width / |x2 - x1|) (c.height / |y2 - y1|) with hab | hab
    · left
      rw [min_eq_left hab]
      exact div_div_self_cancel c.width (|x2 - x1|) (ne_of_gt hw) (ne_of_gt hdx)
    · right
      rw [min_eq_right hab]
      exact div_div_self_cancel c.height (|y2 - y1|) (ne_of_gt hh) (ne_of_gt hdy)
  have hmaxx : max x1 x2 - min x1 x2 = |x2 - x1| := by
    rw [max_sub_min_eq_abs, abs_sub_comm]
  have hmaxy : max y1 y2 - min y1 y2 = |y2 - y1| := by
    rw [max_sub_min_eq_abs, abs_sub_comm]
  rw [setVisibleArea_state c x1 y1 x2 y2 hmin hmax]
  have hhw2 : c.halfWidth / min (c.width / |x2 - x1|) (c.height / |y2 - y1|) =
      c.width / min (c.width / |x2 - x1|) (c.height / |y2 - y1|) / 2 := by
    rw [hhw]; ring
  have hhh2 : c.halfHeight / min (c.width / |x2 - x1|) (c.height / |y2 - y1|) =
      c.height / min (c.width / |x2 - x1|) (c.height / |y2 - y1|) / 2 := by
    rw [hhh]; ring
  cases hc : c.centered <;>
    simp only [Camera2D.clipBounds, hc, Bool.false_eq_true, if_true, if_false,
      ite_true, ite_false] <;>
    refine ⟨by trivial, by trivial, by trivial, ?_, ?_, ?_, ?_, ?_⟩
  · linarith
  · linarith
  · linarith
  · linarith
  · rcases hbind with hb | hb
    · left; linarith
    · right; linarith
  · linarith [hhw2]
  · linarith [hhw2]
  · linarith [hhh2]
  · linarith [hhh2]
  · rcases hbind with hb | hb
    · left; linarith [hhw2]
    · right; linarith [hhh2]

/-- C5 witness: the amended SetVisibleArea theorem applied to the camera
NewCamera2D 800 600 1 and the area (0,0)-(80,60), whose computed zoom 10 is
inside the zoom range [1/100, 20]. -/
theorem C5_witness :
    (((NewCamera2D 800 600 1).SetVisibleArea 0 0 80 60).zoom =
        min ((NewCamera2D 800 600 1).width / |(80 : ℚ) - 0|)
          ((NewCamera2D 800 600 1).height / |(60 : ℚ) - 0|)) ∧
    (((NewCamera2D 800 600 1).SetVisibleArea 0 0 80 60).x =
        (if (NewCamera2D 800 600 1).centered then min 0 80 + |(80 : ℚ) - 0| / 2
         else min 0 80)) ∧
    (((NewCamera2D 800 600 1).SetVisibleArea 0 0 80 60).y =
        (if (NewCamera2D 800 600 1).centered then min 0 60 + |(60 : ℚ) - 0| / 2
         else min 0 60)) ∧
    (((NewCamera2D 800 600 1).SetVisibleArea 0 0 80 60).clipBounds.left ≤ min 0 80) ∧
    (max 0 80 ≤ ((NewCamera2D 800 600 1).SetVisibleArea 0 0 80 60).clipBounds.right) ∧
    (((NewCamera2D 800 600 1).SetVisibleArea 0 0 80 60).clipBounds.bottom ≤ min 0 60) ∧
    (max 0 60 ≤ ((NewCamera2D 800 600 1).SetVisibleArea 0 0 80 60).clipBounds.top) ∧
    (((NewCamera2D 800 600 1).SetVisibleArea 0 0 80 60).clipBounds.right -
        ((NewCamera2D 800 600 1).SetVisibleArea 0 0 80 60).clipBounds.left = |(80 : ℚ) - 0| ∨
      ((NewCamera2D 800 600 1).SetVisibleArea 0 0 80 60).clipBounds.top -
        ((NewCamera2D 800 600 1).SetVisibleArea 0 0 80 60).clipBounds.bottom = |(60 : ℚ) - 0|) :=
  C5_set_visible_area (NewCamera2D 800 600 1) 0 0 80 60
    (by norm_num) (by norm_num)
    (by norm_num [NewCamera2D, Camera2D.rebuildMatrix])
    (by norm_num [NewCamera2D, Camera2D.rebuildMatrix])
    (by norm_num [NewCamera2D, Camera2D.rebuildMatrix])
    (by norm_num [NewCamera2D, Camera2D.rebuildMatrix])
    (by norm_num [NewCamera2D, Camera2D.rebuildMatrix, min_def])
    (by norm_num [NewCamera2D, Camera2D.rebuildMatrix, min_def])

/-! ## Claim C8 -/

/-- C8: constructing a regular polygon from invalid parameters (fewer than 3
segments) fails inside the geometry-construction collaborator with a
descriptive (nonempty) error, and NewRegularPolygonPrimitive then produces no
node at all: the caller sees none, never a partially-initialized primitive. -/
theorem C8_invalid_polygon_refused (sinF cosF sinP cosP : ℚ → ℚ) (center : Vec3)
    (c2 : Vec2) (radius startAngle : ℚ) (numSegments : ℤ) (filled : Bool)
    (h : numSegments < 3) :
    (∃ e, CircleToPolygon sinP cosP c2 radius numSegments startAngle =
        Except.error e ∧ e ≠ "") ∧
    NewRegularPolygonPrimitive sinF cosF sinP cosP center radius numSegments filled =
      none := by
  constructor
  · refine ⟨"a polygon needs at least 3 segments", ?_, by simp⟩
    simp [CircleToPolygon, h]
  · simp [NewRegularPolygonPrimitive, CircleToPolygon, h]

/-- C8 witness: the refusal theorem applied to a polygon request with 2
segments, radius 5, with the trigonometric functions instantiated at
sin = 0, cos = 1. -/
theorem C8_witness :
    (∃ e, CircleToPolygon (fun _ => 0) (fun _ => 1) ⟨0, 0⟩ 5 2 0 =
        Except.error e ∧ e ≠ "") ∧
    NewRegularPolygonPrimitive (fun _ => 0) (fun _ => 1) (fun _ => 0) (fun _ => 1)
      ⟨0, 0, 0⟩ 5 2 true = none :=
  C8_invalid_polygon_refused (fun _ => 0) (fun _ => 1) (fun _ => 0) (fun _ => 1)
    ⟨0, 0, 0⟩ ⟨0, 0⟩ 5 0 2 true (by norm_num)

end GlUtils
